import Mathlib

/-!
Shallow embedding of the MLHelpers repository (training-logger wrappers around
the wandb SDK, plus a model-graph visualization CLI script).

Stateful Python classes become Lean structures; each method becomes a function
from the instance (and an explicit environment for the values returned by
external SDK/OS calls) to an `Except` result carrying the updated instance and
the list of observable external effects (SDK calls, console prints, file
writes).  Python exceptions become `Except.error`; the error branch carries no
effect trace, mirroring that a raise prevents the subsequent SDK call.

Effects that the wrapped libraries perform internally (what `wandb.log` does
with the payload, what `yaml.safe_dump` writes byte by byte) are outside the
repository; the embedding records the exact arguments handed to them.
-/

set_option autoImplicit false

/-- Python runtime values appearing in log/config dictionaries: plain scalars
(ints, strings), torch tensors (modelled as a wrapped scalar, enough to
distinguish "tensor" from "plain scalar"), and nested dicts. -/
inductive PyVal where
  | int (n : Int)
  | str (s : String)
  | tensor (n : Int)
  | dict (entries : List (String × PyVal))
  deriving Repr, BEq

/-- A Python dict with string keys, as an insertion-ordered association list. -/
abbrev PyDict := List (String × PyVal)

/-- Models Python `isinstance(data, dict)`. -/
def PyVal.isDict : PyVal → Bool
  | .dict _ => true
  | _ => false

/-- True when the value is a torch tensor (not a plain scalar). -/
def PyVal.isTensor : PyVal → Bool
  | .tensor _ => true
  | _ => false

/-- True when some value of the dict is a torch tensor. -/
def dictHasTensor (d : PyDict) : Bool :=
  d.any fun kv => kv.2.isTensor

/-- The Python exception classes raised by this repository. -/
inductive PyError where
  | valueError (msg : String)
  | runtimeError (msg : String)
  | typeError (msg : String)
  | indexError
  deriving Repr, BEq

/-- Observable external effects of the logger wrappers: calls into the wandb
SDK, console prints, and YAML file writes (recorded with the structured
content handed to `yaml.safe_dump`). -/
inductive WandbCall where
  | initRun (project : Option String) (entity : Option String)
      (name : Option String) (tags : Option (List String))
      (runId : Option String) (resume : Bool)
  | logData (d : PyDict)
  | finishRun
  | sweepCreate (cfg : PyDict) (project : Option String) (entity : Option String)
  | cliSweep (configPath : String)
  | consoleMsg (s : String)
  | writeYaml (path : String) (content : PyDict)
  deriving Repr, BEq

/-! ## `weight_and_bias.py`: class `WandbLogger` -/

/-- State of `WandbLogger` (src/weight_and_bias.py, lines 3-18).  The run
handle returned by `wandb.init` is opaque; we model it as a `Nat` token, and
Python truthiness of `self.run` (`None` vs. run object) as `Option`. -/
structure WandbLogger where
  project_name : String
  entity : Option String := none
  config : Option PyDict := none
  run : Option Nat := none
  deriving Repr, BEq

/-- `WandbLogger.start` (lines 20-35): unconditionally calls `wandb.init` and
stores the returned run handle (`newRun` is the handle the SDK returns). -/
def WandbLogger.start (l : WandbLogger) (run_name : Option String)
    (tags : Option (List String)) (newRun : Nat) : WandbLogger × List WandbCall :=
  ({ l with run := some newRun },
   [WandbCall.initRun (some l.project_name) l.entity run_name tags none false])

/-- `WandbLogger.log` (lines 37-50): if a run exists, forward dicts to
`wandb.log` and raise `ValueError` on non-dicts; with no run, raise
`RuntimeError`. -/
def WandbLogger.log (l : WandbLogger) (data : PyVal) :
    Except PyError (WandbLogger × List WandbCall) :=
  match l.run with
  | some _ =>
    match data with
    | .dict d => .ok (l, [WandbCall.logData d])
    | _ => .error (.valueError "The data should be a dictionary.")
  | none => .error (.runtimeError "You need to start a run before logging data.")

/-- `WandbLogger.finish` (lines 52-58): if a run exists, call `wandb.finish`
and clear the handle. -/
def WandbLogger.finish (l : WandbLogger) : WandbLogger × List WandbCall :=
  match l.run with
  | some _ => ({ l with run := none }, [WandbCall.finishRun])
  | none => (l, [])

/-! ## `trainlogger.py`: class `TrainLogger` -/

/-- The `sweep_config` constructor argument: `Union[dict, str]` in the source
(a configuration dict, or a path to a YAML file). -/
inductive SweepCfg where
  | dictCfg (d : PyDict)
  | strCfg (path : String)
  deriving Repr, BEq

/-- The Python value stored under the `sweep_config` key of the YAML snapshot. -/
def SweepCfg.toVal : SweepCfg → PyVal
  | .dictCfg d => .dict d
  | .strCfg s => .str s

/-- State of `TrainLogger` (src/trainlogger.py, lines 43-58).  `sweep_function`
and `**kwargs` are opaque pass-through data unused by any claim and are not
modelled. -/
structure TrainLogger where
  use_wandb : Bool
  project_name : Option String
  run_name : Option String
  run_id : Option String
  entity : Option String
  config : Option PyDict
  tags : Option (List String)
  log_yaml_path : Option String
  sweep_config : Option SweepCfg
  sweep_id : Option String
  sweep_counts : Option Nat
  run : Option Nat
  deriving Repr, BEq

/-- Constructor arguments of `TrainLogger.__init__`, with the source's default
values (lines 10-24). -/
structure InitArgs where
  use_wandb : Bool := true
  project_name : Option String := none
  run_name : Option String := none
  run_id : Option String := none
  entity : Option String := none
  config : Option PyDict := none
  tags : Option (List String) := none
  log_yaml_path : Option String := none
  sweep_config : Option SweepCfg := none
  sweep_id : Option String := none
  sweep_counts : Option Nat := none
  deriving Repr

/-- `TrainLogger.__init__` (lines 10-85).  `fetchSweep` is the outcome of the
`wandb.Api().sweep(path).config` fetch attempted inside the `try` block:
`some d` when the API returns config `d`, `none` when any exception is raised
(caught at line 77).  Raises `ValueError` when `use_wandb` is set without a
project name; otherwise initializes the fields, and, when a YAML log path is
given, snapshots `config`/`sweep_config` to that file (only writing when the
snapshot dict is non-empty, per `if content:`). -/
def TrainLogger.make (a : InitArgs) (fetchSweep : Option PyDict) :
    Except PyError (TrainLogger × List WandbCall) :=
  if a.use_wandb && a.project_name.isNone then
    .error (.valueError "project_name must be specified when use_wandb=True")
  else
    let l : TrainLogger :=
      { use_wandb := a.use_wandb, project_name := a.project_name,
        run_name := a.run_name, run_id := a.run_id, entity := a.entity,
        config := a.config, tags := a.tags, log_yaml_path := a.log_yaml_path,
        sweep_config := a.sweep_config, sweep_id := a.sweep_id,
        sweep_counts := a.sweep_counts, run := none }
    match a.log_yaml_path with
    | none => .ok (l, [])
    | some p =>
      let base : PyDict :=
        match a.config with
        | some c => [("config", PyVal.dict c)]
        | none => []
      match a.sweep_config with
      | some cfg =>
        .ok (l, [WandbCall.writeYaml p (base ++ [("sweep_config", cfg.toVal)])])
      | none =>
        match a.sweep_id with
        | some _ =>
          match fetchSweep with
          | some fetched =>
            .ok ({ l with sweep_config := some (.dictCfg fetched) },
                 [WandbCall.writeYaml p (base ++ [("sweep_config", PyVal.dict fetched)])])
          | none =>
            let msg := [WandbCall.consoleMsg "Could not get sweep_config from sweep_id"]
            if base.isEmpty then .ok (l, msg)
            else .ok (l, msg ++ [WandbCall.writeYaml p base])
        | none =>
          if base.isEmpty then .ok (l, [])
          else .ok (l, [WandbCall.writeYaml p base])

/-- True of a whitespace character for Python `str.split()` with no argument. -/
def isPySpace (c : Char) : Bool :=
  c == ' ' || c == '\n' || c == '\t' || c == '\r'

/-- Split a character list at whitespace, keeping empty fragments (they are
filtered afterwards, matching Python `str.split()` discarding empty tokens). -/
def splitWsR : List Char → List (List Char)
  | [] => []
  | c :: rest =>
    let r := splitWsR rest
    if isPySpace c then [] :: r
    else
      match r with
      | h :: t => (c :: h) :: t
      | [] => [[c]]

/-- Python `s.split()`: whitespace-separated tokens, empties discarded. -/
def pySplitWs (s : String) : List String :=
  ((splitWsR s.data).filter (· ≠ [])).map String.mk

/-- Models `out.decode().strip().split()[-1]` (line 125): the last
whitespace-separated token of the CLI output, `none` when there is none
(Python would raise `IndexError`). -/
def lastToken (s : String) : Option String :=
  (pySplitWs s).getLast?

/-- Environment for `TrainLogger.start`: the values that the external calls
made by `start` return (the run handle from `wandb.init`, the sweep id from
`wandb.sweep`, the filesystem's answer to `Path(...).exists()`, and the stdout
of the `wandb sweep` CLI invocation). -/
structure StartEnv where
  newRun : Nat
  newSweepId : String
  fileExists : String → Bool
  cliOutput : String

/-- `TrainLogger.start` (lines 87-127): when `use_wandb`, call `wandb.init`
(resuming when `run_id` is set) and store the run handle; then, when
`sweep_id` is unset and a `sweep_config` exists, create the sweep via
`wandb.sweep` for a dict, via the `wandb sweep` CLI for an existing file path,
and raise `ValueError` otherwise. -/
def TrainLogger.start (l : TrainLogger) (env : StartEnv) :
    Except PyError (TrainLogger × List WandbCall) :=
  let l1 := if l.use_wandb then { l with run := some env.newRun } else l
  let e1 : List WandbCall :=
    if l.use_wandb then
      [WandbCall.initRun l.project_name l.entity l.run_name l.tags l.run_id l.run_id.isSome]
    else []
  match l.sweep_id, l.sweep_config with
  | none, some (.dictCfg d) =>
    .ok ({ l1 with sweep_id := some env.newSweepId },
         e1 ++ [WandbCall.sweepCreate d l.project_name l.entity])
  | none, some (.strCfg path) =>
    if env.fileExists path then
      match lastToken env.cliOutput with
      | some tok => .ok ({ l1 with sweep_id := some tok }, e1 ++ [WandbCall.cliSweep path])
      | none => .error .indexError
    else .error (.valueError "sweep_config must be a dict or an existing file path.")
  | _, _ => .ok (l1, e1)

/-- `TrainLogger.log` (lines 129-140): raise `ValueError` on non-dict input;
otherwise forward the dict to `wandb.log` only when `use_wandb` is set and a
run handle exists, and do nothing at all otherwise. -/
def TrainLogger.log (l : TrainLogger) (data : PyVal) :
    Except PyError (TrainLogger × List WandbCall) :=
  match data with
  | .dict d =>
    if l.use_wandb && l.run.isSome then .ok (l, [WandbCall.logData d])
    else .ok (l, [])
  | _ => .error (.valueError "The data should be a dictionary.")

/-- `TrainLogger.finish` (lines 206-212): when `use_wandb` and a run exists,
call `wandb.finish` and clear the handle. -/
def TrainLogger.finish (l : TrainLogger) : TrainLogger × List WandbCall :=
  if l.use_wandb && l.run.isSome then ({ l with run := none }, [WandbCall.finishRun])
  else (l, [])

/-- `TrainLogger.dump_yaml` (lines 242-255): raise `ValueError` on non-dict
input; then `Path(self.log_yaml_path)` raises `TypeError` when the path is
`None`; otherwise hand the dict to `yaml.safe_dump` targeting the path. -/
def TrainLogger.dump_yaml (l : TrainLogger) (data : PyVal) :
    Except PyError (List WandbCall) :=
  match data with
  | .dict d =>
    match l.log_yaml_path with
    | some p => .ok [WandbCall.writeYaml p d]
    | none => .error (.typeError "argument should be a str or an os.PathLike object, not NoneType")
  | _ => .error (.valueError "Data must be a dictionary.")

/-! ## Model of `yaml.safe_dump` / `yaml.safe_load` on flat scalar dicts

`TrainLogger.dump_yaml` hands its dict to `yaml.safe_dump`, an external
library.  To settle the dump/reload claim we model the YAML text produced for
the fragment the logger actually writes: flat dicts whose values are plain
scalars (ints and strings).  The file content is modelled as its list of
lines; a flat mapping is one `key: value` line per entry, in insertion order
(`sort_keys=False`), strings rendered single-quoted. -/

/-- The single-quote character used by the YAML string rendering. -/
def squote : Char := Char.ofNat 39

/-- Numeric value of a decimal digit character. -/
def digitVal (c : Char) : Nat := c.toNat - 48

/-- The decimal digit character for `d < 10`. -/
def digitChar (d : Nat) : Char := Char.ofNat (48 + d)

/-- Decimal rendering of a natural number, most significant digit first;
`fuel` bounds the recursion depth (any `fuel > n` is enough). -/
def natCharsAux : Nat → Nat → List Char
  | 0, _ => []
  | fuel + 1, n =>
    if n < 10 then [digitChar n]
    else natCharsAux fuel (n / 10) ++ [digitChar (n % 10)]

/-- Decimal rendering of a natural number. -/
def natChars (n : Nat) : List Char := natCharsAux (n + 1) n

/-- Value of a digit string, most significant digit first. -/
def digitsVal (ds : List Char) : Nat :=
  ds.foldl (fun a c => a * 10 + digitVal c) 0

/-- Parse a non-empty all-digit string; `none` otherwise. -/
def digitsNat? (ds : List Char) : Option Nat :=
  if ds.isEmpty then none
  else if ds.all Char.isDigit then some (digitsVal ds)
  else none

/-- Decimal rendering of an integer. -/
def intChars (n : Int) : List Char :=
  if n < 0 then '-' :: natChars n.natAbs else natChars n.toNat

/-- Parse an optionally `-`-signed decimal integer (the fragment of Python
`int(...)` / the YAML int scalar rule exercised here). -/
def charsInt? (ds : List Char) : Option Int :=
  match ds with
  | [] => none
  | c :: rest =>
    if c = '-' then (digitsNat? rest).map (fun m => -(Int.ofNat m))
    else (digitsNat? (c :: rest)).map Int.ofNat

/-- Rendering of a flat scalar value as YAML text: ints in decimal, strings
single-quoted.  Tensors are not YAML-serializable and nested dicts are not
part of the flat fragment: `none`. -/
def valChars : PyVal → Option (List Char)
  | .int n => some (intChars n)
  | .str s => some (squote :: s.data ++ [squote])
  | _ => none

/-- Parse one YAML scalar: a single-quoted string, or a decimal int. -/
def parseVal (ds : List Char) : Option PyVal :=
  match ds with
  | [] => none
  | c :: rest =>
    if c = squote then
      match rest.getLast? with
      | some c2 => if c2 = squote then some (.str ⟨rest.dropLast⟩) else none
      | none => none
    else (charsInt? (c :: rest)).map PyVal.int

/-- One `key: value` line of a flat YAML mapping. -/
def dumpLine (kv : String × PyVal) : Option (List Char) :=
  (valChars kv.2).map (fun v => kv.1.data ++ ':' :: ' ' :: v)

/-- Parse one `key: value` line back into an entry: the key is everything
before the first colon, which must be followed by a space and a scalar (the
head of the `dropWhile` result is that first colon whenever it is non-empty). -/
def parseLine (l : List Char) : Option (String × PyVal) :=
  match l.dropWhile (fun c => c != ':') with
  | _ :: next :: v =>
    if next = ' ' then
      (parseVal v).map (fun pv => (⟨l.takeWhile (fun c => c != ':')⟩, pv))
    else none
  | _ => none

/-- Map a fallible function over a list, failing as a whole when any element
fails (Python list comprehension over a raising function, or a YAML document
built/parsed line by line). -/
def mapOpt {α β : Type} (f : α → Option β) : List α → Option (List β)
  | [] => some []
  | x :: xs =>
    match f x, mapOpt f xs with
    | some y, some ys => some (y :: ys)
    | _, _ => none

/-- The YAML text (as its list of lines) `yaml.safe_dump` produces for a flat
scalar dict with `sort_keys=False`. -/
def yamlDumpFlat (d : PyDict) : Option (List (List Char)) := mapOpt dumpLine d

/-- The mapping `yaml.safe_load` reads back from a flat YAML document. -/
def yamlLoadFlat (ls : List (List Char)) : Option PyDict := mapOpt parseLine ls

/-- Is a flat entry within the modelled YAML fragment: the key free of colons
and newlines, the value an int or a newline-free string (newline-freedom keeps
the line-based file model faithful). -/
def entryOk (kv : String × PyVal) : Bool :=
  !kv.1.data.contains ':' && !kv.1.data.contains '\n' &&
    (match kv.2 with
     | .int _ => true
     | .str s => !s.data.contains '\n'
     | _ => false)

/-- A dict is in the flat scalar YAML fragment. -/
def flatOk (d : PyDict) : Bool := d.all entryOk

/-! ## `visualize_models/visualization.py`: function `main` -/

/-- A torch tensor as far as the visualization script observes it: its shape
(`torch.randn(*shape)`) and the device it lives on.  The random element
values play no role in any claim. -/
structure Tensor where
  shape : List Int
  device : String
  deriving Repr, BEq

/-- The CLI arguments of the visualization script (`parse_args`,
lines 20-38). -/
structure VizArgs where
  model_file : String
  model_class : String
  model_init_args : String := "{}"
  obj : Bool := false
  input_shapes : List String := ["1,10"]
  device : String := "cuda"
  output_name : String := "model_graph"
  output_dir : String := "."
  output_format : String := "png"
  rankdir : String := "TB"
  node_color : String := "lightblue"
  deriving Repr

/-- Observable external effects of the visualization script. -/
inductive VizCall where
  | toDevice (device : String)
  | summaryCall (inputs : List Tensor) (device : String)
  | forward (inputs : List Tensor)
  | render (dir : String) (name : String) (format : String)
      (rankdir : String) (color : String)
  deriving Repr, BEq

/-- True of the forward-pass event. -/
def VizCall.isForward : VizCall → Bool
  | .forward _ => true
  | _ => false

/-- Python `s.split(",")`: split at every comma, keeping empty fragments. -/
def splitCommas : List Char → List (List Char)
  | [] => [[]]
  | c :: rest =>
    let r := splitCommas rest
    if c = ',' then [] :: r
    else
      match r with
      | h :: t => (c :: h) :: t
      | [] => [[c]]

/-- Models `[int(x) for x in shape_str.split(",")]` (line 74): `none` when
`int` raises on some fragment. -/
def parseShape (s : String) : Option (List Int) :=
  mapOpt charsInt? (splitCommas s.data)

/-- Line 69: `torch.device(args.device if torch.cuda.is_available() else
"cpu")` — the device every tensor and the model are placed on. -/
def vizDevice (args : VizArgs) (cudaAvailable : Bool) : String :=
  if cudaAvailable then args.device else "cpu"

/-- Lines 72-75: one `torch.randn(*shape, device=device)` tensor per parsed
shape, in order. -/
def dummyInputs (shapes : List (List Int)) (device : String) : List Tensor :=
  shapes.map fun sh => Tensor.mk sh device

/-- `main` of src/visualize_models/visualization.py, lines 53-87, after the
dynamic import and model construction (external module execution): choose the
device, move the model there, build one dummy tensor per `--input-shapes`
entry, print the summary, run one forward pass, and render the graph.
`int(...)` raises on a malformed shape fragment and `torch.randn` on a
negative dimension; the error branches drop the trace prefix, as no claim
inspects effects preceding a raise. -/
def mainViz (args : VizArgs) (cudaAvailable : Bool) :
    Except PyError (List VizCall) :=
  match mapOpt parseShape args.input_shapes with
  | none => .error (.valueError "invalid literal for int() with base 10")
  | some shapes =>
    if shapes.all (fun sh => sh.all (fun d => decide (0 ≤ d))) then
      .ok [VizCall.toDevice (vizDevice args cudaAvailable),
           VizCall.summaryCall (dummyInputs shapes (vizDevice args cudaAvailable))
             (vizDevice args cudaAvailable),
           VizCall.forward (dummyInputs shapes (vizDevice args cudaAvailable)),
           VizCall.render args.output_dir args.output_name args.output_format
             args.rankdir args.node_color]
    else .error (.runtimeError "Trying to create tensor with negative dimension")

/-! ## Helper lemmas: decimal rendering round-trips through parsing -/

theorem digitVal_digitChar {d : Nat} (h : d < 10) : digitVal (digitChar d) = d := by
  interval_cases d <;> decide

theorem isDigit_digitChar {d : Nat} (h : d < 10) : (digitChar d).isDigit = true := by
  interval_cases d <;> decide

theorem digitsVal_append_single (xs : List Char) (c : Char) :
    digitsVal (xs ++ [c]) = digitsVal xs * 10 + digitVal c := by
  simp [digitsVal, List.foldl_append]

theorem natCharsAux_spec :
    ∀ fuel n : Nat, n < fuel →
      digitsVal (natCharsAux fuel n) = n ∧ natCharsAux fuel n ≠ [] ∧
        ∀ c ∈ natCharsAux fuel n, c.isDigit = true := by
  intro fuel
  induction fuel with
  | zero => intro n hn; omega
  | succ fuel ih =>
    intro n hn
    by_cases h10 : n < 10
    · refine ⟨?_, ?_, ?_⟩ <;> simp [natCharsAux, h10, digitsVal, digitVal_digitChar h10,
        isDigit_digitChar h10]
    · have hdiv : n / 10 < fuel := by omega
      obtain ⟨ihv, ihne, ihd⟩ := ih (n / 10) hdiv
      have hmod : n % 10 < 10 := by omega
      refine ⟨?_, ?_, ?_⟩
      · simp only [natCharsAux, if_neg h10]
        rw [digitsVal_append_single, ihv, digitVal_digitChar hmod]
        omega
      · simp [natCharsAux, if_neg h10]
      · simp only [natCharsAux, if_neg h10]
        intro c hc
        rcases List.mem_append.1 hc with hc | hc
        · exact ihd c hc
        · rcases List.mem_singleton.1 hc with rfl
          exact isDigit_digitChar hmod

theorem digitsVal_natChars (n : Nat) : digitsVal (natChars n) = n :=
  (natCharsAux_spec (n + 1) n (Nat.lt_succ_self n)).1

theorem natChars_ne_nil (n : Nat) : natChars n ≠ [] :=
  (natCharsAux_spec (n + 1) n (Nat.lt_succ_self n)).2.1

theorem natChars_digits (n : Nat) : ∀ c ∈ natChars n, c.isDigit = true :=
  (natCharsAux_spec (n + 1) n (Nat.lt_succ_self n)).2.2

theorem digitsNat?_natChars (n : Nat) : digitsNat? (natChars n) = some n := by
  have hne := natChars_ne_nil n
  have hd := natChars_digits n
  unfold digitsNat?
  rw [if_neg (by simpa [List.isEmpty_iff] using hne),
      if_pos (by rw [List.all_eq_true]; exact hd), digitsVal_natChars]

theorem isDigit_ne_dash {c : Char} (h : c.isDigit = true) : c ≠ '-' := by
  intro hc; subst hc; simp at h

theorem isDigit_ne_squote {c : Char} (h : c.isDigit = true) : c ≠ squote := by
  intro hc; subst hc; simp [squote, Char.isDigit] at h

theorem charsInt?_cons_dash (t : List Char) :
    charsInt? ('-' :: t) = (digitsNat? t).map (fun m => -(Int.ofNat m)) := by
  simp [charsInt?]

theorem charsInt?_cons_ne_dash {c : Char} (t : List Char) (h : c ≠ '-') :
    charsInt? (c :: t) = (digitsNat? (c :: t)).map Int.ofNat := by
  simp [charsInt?, h]

theorem intChars_ne_nil (n : Int) : intChars n ≠ [] := by
  by_cases hn : n < 0 <;> simp [intChars, hn, natChars_ne_nil]

theorem charsInt?_intChars (n : Int) : charsInt? (intChars n) = some n := by
  by_cases hn : n < 0
  · have hi : intChars n = '-' :: natChars n.natAbs := by simp [intChars, hn]
    rw [hi, charsInt?_cons_dash, digitsNat?_natChars, Option.map_some']
    congr 1
    simp only [Int.ofNat_eq_natCast]
    omega
  · have he : intChars n = natChars n.toNat := by simp [intChars, hn]
    obtain ⟨c, t, hct⟩ := List.exists_cons_of_ne_nil (natChars_ne_nil n.toNat)
    have hcd : c.isDigit = true := natChars_digits n.toNat c (hct ▸ List.mem_cons_self c t)
    rw [he, hct, charsInt?_cons_ne_dash t (isDigit_ne_dash hcd), ← hct,
      digitsNat?_natChars, Option.map_some']
    congr 1
    simpa using Int.toNat_of_nonneg (not_lt.1 hn)

theorem parseVal_cons_ne_squote {c : Char} (t : List Char) (h : c ≠ squote) :
    parseVal (c :: t) = (charsInt? (c :: t)).map PyVal.int := by
  simp [parseVal, h]

theorem parseVal_intChars (n : Int) : parseVal (intChars n) = some (.int n) := by
  have hsq : ∀ c t, intChars n = c :: t → c ≠ squote := by
    intro c t hct
    by_cases hn : n < 0
    · have hi : intChars n = '-' :: natChars n.natAbs := by simp [intChars, hn]
      rw [hi] at hct
      injection hct with h1 h2
      rw [← h1]
      decide
    · have he : intChars n = natChars n.toNat := by simp [intChars, hn]
      rw [he] at hct
      exact isDigit_ne_squote (natChars_digits n.toNat c (hct ▸ List.mem_cons_self c t))
  obtain ⟨c, t, hct⟩ := List.exists_cons_of_ne_nil (intChars_ne_nil n)
  rw [hct, parseVal_cons_ne_squote t (hsq c t hct), ← hct, charsInt?_intChars,
    Option.map_some']

theorem parseVal_str (s : String) :
    parseVal (squote :: s.data ++ [squote]) = some (.str s) := by
  simp only [List.cons_append, parseVal, if_pos rfl, List.getLast?_concat,
    List.dropLast_concat]
  cases s
  rfl

/-! ## Helper lemmas: flat YAML mappings round-trip through dump and load -/

theorem takeWhile_ne_colon_append (k rest : List Char) (hk : ∀ c ∈ k, c ≠ ':') :
    (k ++ ':' :: rest).takeWhile (fun c => c != ':') = k := by
  induction k with
  | nil => simp [List.takeWhile_cons]
  | cons c t ih =>
    have hc : (c != ':') = true := bne_iff_ne.2 (hk c (List.mem_cons_self c t))
    simp only [List.cons_append, List.takeWhile_cons, hc, if_true]
    exact congrArg (c :: ·) (ih fun x hx => hk x (List.mem_cons_of_mem c hx))

theorem dropWhile_ne_colon_append (k rest : List Char) (hk : ∀ c ∈ k, c ≠ ':') :
    (k ++ ':' :: rest).dropWhile (fun c => c != ':') = ':' :: rest := by
  induction k with
  | nil => simp [List.dropWhile_cons]
  | cons c t ih =>
    have hc : (c != ':') = true := bne_iff_ne.2 (hk c (List.mem_cons_self c t))
    simp only [List.cons_append, List.dropWhile_cons, hc, if_true]
    exact ih fun x hx => hk x (List.mem_cons_of_mem c hx)

theorem not_mem_of_contains_eq_false {l : List Char} {a : Char}
    (h : l.contains a = false) : a ∉ l := by
  intro hm
  rw [List.contains_eq_any_beq] at h
  have : l.any (a == ·) = true := List.any_eq_true.2 ⟨a, hm, by simp⟩
  rw [this] at h
  cases h

theorem parseLine_dumpLine (k : String) (v : PyVal) (hok : entryOk (k, v) = true) :
    ∃ l, dumpLine (k, v) = some l ∧ parseLine l = some (k, v) := by
  have hok' := hok
  simp only [entryOk, Bool.and_eq_true, Bool.not_eq_true'] at hok'
  have hk : ∀ c ∈ k.data, c ≠ ':' := by
    intro c hc hcc
    exact not_mem_of_contains_eq_false hok'.1.1 (hcc ▸ hc)
  cases v with
  | int n =>
    refine ⟨k.data ++ ':' :: ' ' :: intChars n, rfl, ?_⟩
    simp only [parseLine, dropWhile_ne_colon_append k.data (' ' :: intChars n) hk,
      takeWhile_ne_colon_append k.data (' ' :: intChars n) hk, if_pos rfl,
      parseVal_intChars, Option.map_some', if_true]
  | str s =>
    refine ⟨k.data ++ ':' :: ' ' :: (squote :: s.data ++ [squote]), rfl, ?_⟩
    simp only [parseLine,
      dropWhile_ne_colon_append k.data (' ' :: (squote :: s.data ++ [squote])) hk,
      takeWhile_ne_colon_append k.data (' ' :: (squote :: s.data ++ [squote])) hk,
      if_pos rfl, parseVal_str, Option.map_some', if_true]
  | tensor n => simp at hok'
  | dict entries => simp at hok'

theorem mapOpt_length {α β : Type} (f : α → Option β) :
    ∀ (xs : List α) (ys : List β), mapOpt f xs = some ys → ys.length = xs.length := by
  intro xs
  induction xs with
  | nil =>
    intro ys h
    cases h
    rfl
  | cons x xs ih =>
    intro ys h
    simp only [mapOpt] at h
    cases hfx : f x with
    | none => rw [hfx] at h; cases h
    | some y =>
      rw [hfx] at h
      cases hxs : mapOpt f xs with
      | none => rw [hxs] at h; cases h
      | some zs =>
        rw [hxs] at h
        cases h
        simp [ih zs hxs]

theorem yamlLoadFlat_yamlDumpFlat (d : PyDict) (h : flatOk d = true) :
    ∃ ls, yamlDumpFlat d = some ls ∧ yamlLoadFlat ls = some d := by
  induction d with
  | nil => exact ⟨[], rfl, rfl⟩
  | cons kv d ih =>
    rw [flatOk, List.all_cons, Bool.and_eq_true] at h
    obtain ⟨l, hdl, hpl⟩ := parseLine_dumpLine kv.1 kv.2 h.1
    obtain ⟨ls, hds, hls⟩ := ih h.2
    refine ⟨l :: ls, ?_, ?_⟩
    · simp only [yamlDumpFlat, mapOpt, hdl]
      rw [show mapOpt dumpLine d = yamlDumpFlat d from rfl, hds]
    · simp only [yamlLoadFlat, mapOpt, hpl]
      rw [show mapOpt parseLine ls = yamlLoadFlat ls from rfl, hls]

/-! ## Concrete instances used by witnesses and counterexamples -/

/-- A `TrainLogger` with tracking enabled and a started run. -/
def tLive : TrainLogger :=
  { use_wandb := true, project_name := some "proj", run_name := none,
    run_id := none, entity := none, config := none, tags := none,
    log_yaml_path := none, sweep_config := none, sweep_id := none,
    sweep_counts := none, run := some 0 }

/-- A `TrainLogger` with tracking enabled on which no run has been started. -/
def tIdle : TrainLogger := { tLive with run := none }

/-- A `WandbLogger` with a started run. -/
def wLive : WandbLogger := { project_name := "proj", run := some 0 }

/-- A `WandbLogger` on which no run has been started. -/
def wIdle : WandbLogger := { project_name := "proj" }

/-! ## Claims -/

/-- C1, counterexample: with tracking enabled and a run started, `TrainLogger.log`
hands the dictionary to `wandb.log` with its tensor value still a tensor — the
wrapper performs no tensor-to-scalar conversion before forwarding. -/
theorem log_tensor_not_converted :
    tLive.log (.dict [("loss", .tensor 3)]) =
      .ok (tLive, [WandbCall.logData [("loss", .tensor 3)]]) ∧
    dictHasTensor [("loss", .tensor 3)] = true :=
  ⟨rfl, rfl⟩

/-- C1, amended: for every dictionary payload passed to the log operation while
tracking is enabled and a run is started, the dictionary is forwarded to the
tracking SDK exactly as given; tensor values are not converted to plain
scalars by the wrapper (both for `TrainLogger.log` and `WandbLogger.log`). -/
theorem log_forwards_payload_unchanged (l : TrainLogger) (w : WandbLogger)
    (d : PyDict) (hw : l.use_wandb = true) (hr : l.run.isSome = true)
    (hwr : w.run.isSome = true) :
    l.log (.dict d) = .ok (l, [WandbCall.logData d]) ∧
    w.log (.dict d) = .ok (w, [WandbCall.logData d]) := by
  constructor
  · simp [TrainLogger.log, hw, hr]
  · obtain ⟨r, hr'⟩ := Option.isSome_iff_exists.1 hwr
    simp [WandbLogger.log, hr']

/-- C1, witness for the amended claim at a concrete payload. -/
theorem log_forwards_payload_unchanged_witness :
    tLive.use_wandb = true ∧ tLive.run.isSome = true ∧ wLive.run.isSome = true ∧
    (tLive.log (.dict [("acc", .int 1)]) =
        .ok (tLive, [WandbCall.logData [("acc", .int 1)]]) ∧
      wLive.log (.dict [("acc", .int 1)]) =
        .ok (wLive, [WandbCall.logData [("acc", .int 1)]])) :=
  ⟨rfl, rfl, rfl,
    log_forwards_payload_unchanged tLive wLive [("acc", .int 1)] rfl rfl rfl⟩

/-- C2: constructing the wrapper with tracking enabled and no project name
raises `ValueError`; with a project name given, construction succeeds with
respect to this check. -/
theorem make_requires_project_name (a : InitArgs) (fetch : Option PyDict)
    (hw : a.use_wandb = true) :
    (a.project_name = none →
      TrainLogger.make a fetch =
        .error (.valueError "project_name must be specified when use_wandb=True")) ∧
    (∀ p, a.project_name = some p → ∃ r, TrainLogger.make a fetch = .ok r) := by
  constructor
  · intro hp
    simp [TrainLogger.make, hw, hp]
  · intro p hp
    have hcond : (a.use_wandb && a.project_name.isNone) = false := by
      rw [hp]
      simp
    unfold TrainLogger.make
    rw [hcond]
    simp only [Bool.false_eq_true, if_false]
    cases hy : a.log_yaml_path with
    | none => exact ⟨_, rfl⟩
    | some py =>
      cases hsc : a.sweep_config with
      | some cfg => exact ⟨_, rfl⟩
      | none =>
        cases hsid : a.sweep_id with
        | none =>
          cases hc : a.config with
          | none => exact ⟨_, rfl⟩
          | some c => exact ⟨_, rfl⟩
        | some sid =>
          cases fetch with
          | none =>
            cases hc : a.config with
            | none => exact ⟨_, rfl⟩
            | some c => exact ⟨_, rfl⟩
          | some fetched => exact ⟨_, rfl⟩

/-- C2, witness: the check fires on an all-default construction and passes
once a project name is supplied. -/
theorem make_requires_project_name_witness :
    ({} : InitArgs).use_wandb = true ∧
    ({} : InitArgs).project_name = none ∧
    TrainLogger.make {} none =
      .error (.valueError "project_name must be specified when use_wandb=True") ∧
    ∃ r, TrainLogger.make { project_name := some "proj" } none = .ok r :=
  ⟨rfl, rfl, (make_requires_project_name {} none rfl).1 rfl,
    (make_requires_project_name { project_name := some "proj" } none rfl).2 "proj" rfl⟩

/-- C3: for every non-dictionary input, both log operations raise (so nothing
reaches the SDK: the error branch carries no effect trace). -/
theorem log_nondict_raises (l : TrainLogger) (w : WandbLogger) (v : PyVal)
    (h : v.isDict = false) :
    l.log v = .error (.valueError "The data should be a dictionary.") ∧
    ∃ e, w.log v = .error e := by
  constructor
  · cases v with
    | dict d => simp [PyVal.isDict] at h
    | int n => rfl
    | str s => rfl
    | tensor n => rfl
  · cases hw : w.run with
    | none =>
      refine ⟨.runtimeError "You need to start a run before logging data.", ?_⟩
      unfold WandbLogger.log
      rw [hw]
    | some r =>
      refine ⟨.valueError "The data should be a dictionary.", ?_⟩
      unfold WandbLogger.log
      rw [hw]
      cases v with
      | dict d => simp [PyVal.isDict] at h
      | int n => rfl
      | str s => rfl
      | tensor n => rfl

/-- C3, witness at the non-dict input `7`. -/
theorem log_nondict_raises_witness :
    (PyVal.int 7).isDict = false ∧
    tLive.log (.int 7) = .error (.valueError "The data should be a dictionary.") ∧
    ∃ e, wLive.log (.int 7) = .error e :=
  ⟨rfl, (log_nondict_raises tLive wLive (.int 7) rfl).1,
    (log_nondict_raises tLive wLive (.int 7) rfl).2⟩

/-- C4: data reaches the SDK only while a run handle exists.  With no run
handle, `TrainLogger.log` forwards nothing; any forwarding implies a run
handle exists (and tracking is on); `finish` clears the handle; and
`WandbLogger.log` with no run raises instead of forwarding. -/
theorem forwarding_requires_run :
    (∀ (l : TrainLogger) (v : PyVal) (l' : TrainLogger) (tr : List WandbCall),
      l.run = none → l.log v = .ok (l', tr) → tr = []) ∧
    (∀ (l : TrainLogger) (v : PyVal) (l' : TrainLogger) (tr : List WandbCall),
      l.log v = .ok (l', tr) → tr ≠ [] →
        l.run.isSome = true ∧ l.use_wandb = true) ∧
    (∀ l : TrainLogger, l.use_wandb = true → ((l.finish).1).run = none) ∧
    (∀ (w : WandbLogger) (v : PyVal), w.run = none →
      w.log v = .error (.runtimeError "You need to start a run before logging data.")) := by
  refine ⟨?_, ?_, ?_, ?_⟩
  · intro l v l' tr hrun hlog
    cases v with
    | dict d =>
      rw [TrainLogger.log, hrun] at hlog
      simp at hlog
      exact hlog.2
    | int n => cases hlog
    | str s => cases hlog
    | tensor n => cases hlog
  · intro l v l' tr hlog hne
    cases v with
    | dict d =>
      rw [TrainLogger.log] at hlog
      by_cases hc : (l.use_wandb && l.run.isSome) = true
      · rw [Bool.and_eq_true] at hc
        exact ⟨hc.2, hc.1⟩
      · rw [if_neg (by simp_all)] at hlog
        simp at hlog
        exact absurd hlog.2 hne
    | int n => cases hlog
    | str s => cases hlog
    | tensor n => cases hlog
  · intro l hw
    unfold TrainLogger.finish
    cases hr : l.run with
    | none => simp [hr]
    | some r => simp [hw, hr]
  · intro w v hw
    unfold WandbLogger.log
    rw [hw]

/-- C4, witness: a fresh `WandbLogger` refuses to log, and a fresh
`TrainLogger` has no run handle. -/
theorem forwarding_requires_run_witness :
    tIdle.run = none ∧ wIdle.run = none ∧
    wIdle.log (.dict [("a", .int 0)]) =
      .error (.runtimeError "You need to start a run before logging data.") :=
  ⟨rfl, rfl, forwarding_requires_run.2.2.2 wIdle (.dict [("a", .int 0)]) rfl⟩

/-- C5: when the constructor's sweep-config fetch from a `sweep_id` fails, the
failure is caught: construction succeeds, a console message is printed,
`sweep_config` remains unset, and no `sweep_config` entry appears in the YAML
snapshot that may still be written. -/
theorem sweep_fetch_failure_skipped (a : InitArgs) (p sid : String)
    (hguard : (a.use_wandb && a.project_name.isNone) = false)
    (hp : a.log_yaml_path = some p) (hsc : a.sweep_config = none)
    (hsid : a.sweep_id = some sid) :
    ∃ l tr, TrainLogger.make a none = .ok (l, tr) ∧
      l.sweep_config = none ∧
      WandbCall.consoleMsg "Could not get sweep_config from sweep_id" ∈ tr ∧
      ∀ p' c, WandbCall.writeYaml p' c ∈ tr → ∀ kv ∈ c, kv.1 ≠ "sweep_config" := by
  unfold TrainLogger.make
  rw [hguard, hp, hsc, hsid]
  simp only [Bool.false_eq_true, if_false]
  cases hc : a.config with
  | none =>
    refine ⟨_, _, rfl, rfl, List.mem_singleton.2 rfl, ?_⟩
    intro p' c hmem kv hkv
    rw [List.mem_singleton] at hmem
    simp at hmem
  | some c =>
    refine ⟨_, _, rfl, rfl, by simp, ?_⟩
    intro p' c' hmem kv hkv
    simp only [List.singleton_append, List.mem_cons, List.mem_singleton] at hmem
    rcases hmem with he | he | he
    · simp at he
    · injection he with h1 h2
      rw [h2] at hkv
      rw [List.mem_singleton] at hkv
      simp [hkv]
    · simp at he

/-- The constructor arguments of the C5 witness: YAML path and sweep id given,
no sweep config. -/
def aFetchFail : InitArgs :=
  { project_name := some "proj", log_yaml_path := some "cfg.yaml",
    config := some [("lr", .int 3)], sweep_id := some "s1" }

/-- C5, witness: a failing fetch at concrete constructor arguments. -/
theorem sweep_fetch_failure_skipped_witness :
    (aFetchFail.use_wandb && aFetchFail.project_name.isNone) = false ∧
    aFetchFail.log_yaml_path = some "cfg.yaml" ∧
    aFetchFail.sweep_config = none ∧
    aFetchFail.sweep_id = some "s1" ∧
    ∃ l tr, TrainLogger.make aFetchFail none = .ok (l, tr) ∧
      l.sweep_config = none ∧
      WandbCall.consoleMsg "Could not get sweep_config from sweep_id" ∈ tr ∧
      ∀ p' c, WandbCall.writeYaml p' c ∈ tr → ∀ kv ∈ c, kv.1 ≠ "sweep_config" :=
  ⟨rfl, rfl, rfl, rfl,
    sweep_fetch_failure_skipped aFetchFail "cfg.yaml" "s1" rfl rfl rfl rfl⟩

/-- C6: with a YAML log path configured, `dump_yaml` hands exactly the input
dictionary to `yaml.safe_dump` for that path, and (for flat scalar dicts, the
fragment the YAML text model covers) the written document parses back to a
mapping equal to the input. -/
theorem dump_yaml_matches_on_reload (l : TrainLogger) (p : String) (d : PyDict)
    (hp : l.log_yaml_path = some p) (hflat : flatOk d = true) :
    l.dump_yaml (.dict d) = .ok [WandbCall.writeYaml p d] ∧
    ∃ ls, yamlDumpFlat d = some ls ∧ yamlLoadFlat ls = some d := by
  constructor
  · unfold TrainLogger.dump_yaml
    rw [hp]
  · exact yamlLoadFlat_yamlDumpFlat d hflat

/-- A `TrainLogger` with a YAML log path, for the C6 witness. -/
def tYaml : TrainLogger := { tIdle with log_yaml_path := some "run.yaml" }

/-- A concrete flat configuration dict for the C6 witness. -/
def sampleCfg : PyDict :=
  [("epochs", .int 10), ("optimizer", .str "adam"), ("delta", .int (-1))]

/-- C6, witness: the round-trip at a concrete dict. -/
theorem dump_yaml_matches_on_reload_witness :
    tYaml.log_yaml_path = some "run.yaml" ∧ flatOk sampleCfg = true ∧
    tYaml.dump_yaml (.dict sampleCfg) =
      .ok [WandbCall.writeYaml "run.yaml" sampleCfg] ∧
    ∃ ls, yamlDumpFlat sampleCfg = some ls ∧ yamlLoadFlat ls = some sampleCfg :=
  ⟨rfl, rfl,
    (dump_yaml_matches_on_reload tYaml "run.yaml" sampleCfg rfl rfl).1,
    (dump_yaml_matches_on_reload tYaml "run.yaml" sampleCfg rfl rfl).2⟩

/-- C7: `start` leaves a caller-supplied `sweep_id` unchanged; with `sweep_id`
unset and a sweep configuration present it returns with `sweep_id` set to the
value obtained from the SDK (`wandb.sweep` for a dict, the sweep CLI's last
output token for an existing file path), and raises when the configuration is
neither a dict nor an existing file path. -/
theorem start_sweep_id_behavior (l : TrainLogger) (env : StartEnv) :
    (∀ s, l.sweep_id = some s →
      ∃ l' tr, l.start env = .ok (l', tr) ∧ l'.sweep_id = some s) ∧
    (∀ d, l.sweep_id = none → l.sweep_config = some (.dictCfg d) →
      ∃ l' tr, l.start env = .ok (l', tr) ∧ l'.sweep_id = some env.newSweepId ∧
        WandbCall.sweepCreate d l.project_name l.entity ∈ tr) ∧
    (∀ path tok, l.sweep_id = none → l.sweep_config = some (.strCfg path) →
      env.fileExists path = true → lastToken env.cliOutput = some tok →
      ∃ l' tr, l.start env = .ok (l', tr) ∧ l'.sweep_id = some tok ∧
        WandbCall.cliSweep path ∈ tr) ∧
    (∀ path, l.sweep_id = none → l.sweep_config = some (.strCfg path) →
      env.fileExists path = false →
      l.start env =
        .error (.valueError "sweep_config must be a dict or an existing file path.")) := by
  refine ⟨?_, ?_, ?_, ?_⟩
  · intro s hs
    unfold TrainLogger.start
    rw [hs]
    by_cases hw : l.use_wandb <;> simp [hw, hs]
  · intro d hs hc
    unfold TrainLogger.start
    rw [hs, hc]
    by_cases hw : l.use_wandb <;>
      (simp [hw]; exact ⟨_, _, ⟨rfl, rfl⟩, rfl, by simp⟩)
  · intro path tok hs hc hfe htok
    unfold TrainLogger.start
    rw [hs, hc]
    by_cases hw : l.use_wandb <;>
      (simp [hw, hfe, htok]; exact ⟨_, _, ⟨rfl, rfl⟩, rfl, by simp⟩)
  · intro path hs hc hfe
    unfold TrainLogger.start
    rw [hs, hc]
    simp only [hfe, Bool.false_eq_true, if_false]

/-- A `TrainLogger` holding a dict sweep configuration, for the C7 witness. -/
def tSweep : TrainLogger :=
  { tIdle with sweep_config := some (.dictCfg [("metric", .str "loss")]) }

/-- A concrete environment for the C7 witness. -/
def envDemo : StartEnv :=
  { newRun := 7, newSweepId := "sweepX", fileExists := fun _ => false,
    cliOutput := "Created sweep with ID: tok9" }

/-- C7, witness: starting with a dict sweep configuration stores the SDK's
sweep id. -/
theorem start_sweep_id_behavior_witness :
    tSweep.sweep_id = none ∧
    tSweep.sweep_config = some (.dictCfg [("metric", .str "loss")]) ∧
    ∃ l' tr, tSweep.start envDemo = .ok (l', tr) ∧
      l'.sweep_id = some envDemo.newSweepId ∧
      WandbCall.sweepCreate [("metric", .str "loss")] tSweep.project_name
        tSweep.entity ∈ tr :=
  ⟨rfl, rfl,
    (start_sweep_id_behavior tSweep envDemo).2.1 [("metric", .str "loss")] rfl rfl⟩

/-- C9: `TrainLogger.log` with a valid dict while no run has been started (or
tracking is off) is a silent no-op — no exception, no SDK call, state
unchanged — whereas `WandbLogger.log` raises `RuntimeError` without a run. -/
theorem log_noop_without_run (l : TrainLogger) (w : WandbLogger) (d : PyDict)
    (h : l.run = none ∨ l.use_wandb = false) (hw : w.run = none) :
    l.log (.dict d) = .ok (l, []) ∧
    w.log (.dict d) =
      .error (.runtimeError "You need to start a run before logging data.") := by
  constructor
  · have hc : (l.use_wandb && l.run.isSome) = false := by
      rcases h with h | h <;> simp [h]
    simp [TrainLogger.log, hc]
  · unfold WandbLogger.log
    rw [hw]

/-- C9, witness: a fresh `TrainLogger` silently accepts what a fresh
`WandbLogger` rejects. -/
theorem log_noop_without_run_witness :
    (tIdle.run = none ∨ tIdle.use_wandb = false) ∧ wIdle.run = none ∧
    tIdle.log (.dict [("loss", .int 2)]) = .ok (tIdle, []) ∧
    wIdle.log (.dict [("loss", .int 2)]) =
      .error (.runtimeError "You need to start a run before logging data.") :=
  ⟨Or.inl rfl, rfl,
    (log_noop_without_run tIdle wIdle [("loss", .int 2)] (Or.inl rfl) rfl).1,
    (log_noop_without_run tIdle wIdle [("loss", .int 2)] (Or.inl rfl) rfl).2⟩

/-- C8: each comma-separated `--input-shapes` string parses into its integer
dimension list and yields exactly one dummy tensor of that shape, and the
forward pass happens exactly once, with the tensors in the order the shapes
were given. -/
theorem input_shapes_forward_once (args : VizArgs) (cuda : Bool)
    (dss : List (List Int))
    (hparse : mapOpt parseShape args.input_shapes = some dss)
    (hpos : ∀ ds ∈ dss, ∀ d ∈ ds, 0 ≤ d) :
    ∃ tr, mainViz args cuda = .ok tr ∧
      tr.filter VizCall.isForward =
        [VizCall.forward (dss.map fun ds =>
          Tensor.mk ds (if cuda then args.device else "cpu"))] ∧
      dss.length = args.input_shapes.length := by
  have hall : (dss.all fun sh => sh.all fun d => decide (0 ≤ d)) = true := by
    rw [List.all_eq_true]
    intro sh hsh
    rw [List.all_eq_true]
    intro d hd
    exact decide_eq_true (hpos sh hsh d hd)
  refine ⟨[VizCall.toDevice (vizDevice args cuda),
      VizCall.summaryCall (dummyInputs dss (vizDevice args cuda))
        (vizDevice args cuda),
      VizCall.forward (dummyInputs dss (vizDevice args cuda)),
      VizCall.render args.output_dir args.output_name args.output_format
        args.rankdir args.node_color], ?_, ?_,
    mapOpt_length parseShape args.input_shapes dss hparse⟩
  · unfold mainViz
    rw [hparse]
    simp only [hall, if_true]
  · simp [VizCall.isForward, dummyInputs, vizDevice]

/-- The CLI arguments of the visualization witnesses. -/
def vizDemo : VizArgs :=
  { model_file := "model.py", model_class := "Net",
    input_shapes := ["1,80,10", "2,3"] }

/-- C8, witness: two concrete shape strings, parsed and forwarded once. -/
theorem input_shapes_forward_once_witness :
    mapOpt parseShape vizDemo.input_shapes = some [[1, 80, 10], [2, 3]] ∧
    ∃ tr, mainViz vizDemo true = .ok tr ∧
      tr.filter VizCall.isForward =
        [VizCall.forward (([[1, 80, 10], [2, 3]] : List (List Int)).map fun ds =>
          Tensor.mk ds (if true then vizDemo.device else "cpu"))] ∧
      ([[1, 80, 10], [2, 3]] : List (List Int)).length =
        vizDemo.input_shapes.length :=
  ⟨rfl, input_shapes_forward_once vizDemo true [[1, 80, 10], [2, 3]] rfl
    (by decide)⟩

/-- C10: the `--device` flag is honored only when CUDA is available — without
CUDA the model and every dummy tensor are placed on `"cpu"` whatever the flag
says, and with CUDA the flag's string is used as the device as given. -/
theorem device_cpu_fallback (args : VizArgs) (cuda : Bool) (tr : List VizCall)
    (h : mainViz args cuda = .ok tr) :
    VizCall.toDevice (if cuda then args.device else "cpu") ∈ tr ∧
    ∀ ts, VizCall.forward ts ∈ tr →
      ∀ t ∈ ts, t.device = (if cuda then args.device else "cpu") := by
  unfold mainViz at h
  split at h
  · simp at h
  · split at h
    · injection h with h
      subst h
      constructor
      · exact List.mem_cons_self _ _
      · intro ts hts t ht
        simp only [List.mem_cons, List.mem_singleton] at hts
        rcases hts with he | he | he | he
        · simp at he
        · simp at he
        · injection he with he
          rw [he] at ht
          simp only [dummyInputs] at ht
          obtain ⟨sh, hsh, rfl⟩ := List.mem_map.1 ht
          rfl
        · simp at he
    · simp at h

/-- The trace of the C10 witness run (CUDA unavailable). -/
def trCpuDemo : List VizCall :=
  [VizCall.toDevice "cpu",
   VizCall.summaryCall
     [Tensor.mk [1, 80, 10] "cpu", Tensor.mk [2, 3] "cpu"] "cpu",
   VizCall.forward [Tensor.mk [1, 80, 10] "cpu", Tensor.mk [2, 3] "cpu"],
   VizCall.render "." "model_graph" "png" "TB" "lightblue"]

/-- C10, witness: with CUDA unavailable and the flag at its default `"cuda"`,
everything lands on the CPU. -/
theorem device_cpu_fallback_witness :
    mainViz vizDemo false = .ok trCpuDemo ∧
    VizCall.toDevice (if false then vizDemo.device else "cpu") ∈ trCpuDemo :=
  ⟨rfl, (device_cpu_fallback vizDemo false trCpuDemo rfl).1⟩
